import Mathlib

/-
Verification of the value bridge and execution-control layer of the
`_quickjs` Python extension module (module.c).

The embedding follows module.c closely.  The embedded QuickJS engine itself
(quickjs.h / quickjs.c, vendored under third-party/ and not part of the
bridging code) is an opaque collaborator; its primitives are modelled from
the specification where module.c calls into them.  Host (CPython) reference
counting and error raising are modelled as explicit data.
-/

namespace QuickJSBridge

/-- Opaque bit-level representation of a C `double`.  The bridge never
computes with doubles; payloads only flow through conversions, so the
representation is an uninterpreted carrier with decidable equality. -/
structure CDouble where
  bits : Nat
deriving DecidableEq, Repr

/-- Kind of a Python exception set by the bridge or by a host callable. -/
inductive PyExcKind where
  /-- the generic script-exception type created by module_exec -/
  | JSException
  /-- the stack-overflow type created by module_exec -/
  | StackOverflowExc
  | TypeError
  | ValueError
  | MemoryError
  /-- any other host exception type, identified by name -/
  | otherExc (name : String)
deriving DecidableEq, Repr

/-- A raised Python exception: its type and its message. -/
structure PyErr where
  kind : PyExcKind
  msg : String
deriving DecidableEq, Repr

/-- Engine value (JSValue), discriminated by tag as in quickjs.  The `int`
payload is the engine-native 32-bit integer field; construction sites
(JS_MKVAL) truncate into it.  Heap values (object, module, symbol) are
identified by an id. -/
inductive JSValue where
  | int (v : Int)
  | bigInt (v : Int)
  | bool (b : Bool)
  | null
  | undefined
  | exception
  | float64 (d : CDouble)
  | string (s : String)
  | object (id : Nat)
  | module (id : Nat)
  | symbol (id : Nat)
  | unknown (tag : Int)
deriving DecidableEq, Repr

/-- Host (Python) value as seen by the bridge.  `jsObject` is an instance of
_quickjs.Object: its `runtime_data` pointer (none when NULL, i.e. the object
was created directly from the type) and the wrapped engine value.  `otherVal`
is any Python object of an unsupported type, identified by its type name. -/
inductive PyValue where
  | bool (b : Bool)
  | int (v : Int)
  | float (d : CDouble)
  | none
  | str (s : String)
  | jsObject (runtime : Option Nat) (v : JSValue)
  | otherVal (typeName : String)
deriving DecidableEq, Repr

/-- Smallest value of a C `long` on the LP64 build targets (64-bit). -/
def cLongMin : Int := -(2 ^ 63)

/-- Largest value of a C `long` on the LP64 build targets (64-bit). -/
def cLongMax : Int := 2 ^ 63 - 1

/-- Two-complement wrap of an integer into the engine-native 32-bit integer
field, as performed by the C conversion from `long` to `int32_t` inside
JS_MKVAL(JS_TAG_INT, value). -/
def toInt32 (v : Int) : Int := (v + 2 ^ 31) % 2 ^ 32 - 2 ^ 31

/-- Result of python_to_quickjs_possible: either the item is convertible, or
a Python error has been set (PyErr_Format) and 0 is returned. -/
inductive ConvCheck where
  | ok
  | fail (e : PyErr)
deriving DecidableEq, Repr

/-- python_to_quickjs_possible (module.c:204).  Whether converting item to
QuickJS would be possible; `ctx` is the identity of the calling context
(self), compared against the runtime_data pointer of a wrapped object. -/
def python_to_quickjs_possible (ctx : Nat) (item : PyValue) : ConvCheck :=
  match item with
  | .bool _ => .ok
  | .int _ => .ok
  | .float _ => .ok
  | .none => .ok
  | .str _ => .ok
  | .jsObject runtime _ =>
      if runtime = some ctx then .ok
      else .fail { kind := .ValueError,
                   msg := "Can not mix JS objects from different contexts." }
  | .otherVal typeName =>
      .fail { kind := .TypeError,
              msg := "Unsupported type when converting a Python object to quickjs: "
                     ++ typeName ++ "." }

/-- python_to_quickjs (module.c:234).  Converts item to QuickJS.  The
parameter `round` models PyNumber_Float followed by PyFloat_AsDouble on an
overflowing integer (host float rounding, left abstract).  JS_NewFloat64 and
JS_NewString are engine primitives; modelled from the spec they produce the
script double and script string holding the given payload.  If the Python
object is not convertible, undefined is returned (the fallback is never used
when python_to_quickjs_possible returned ok). -/
def python_to_quickjs (round : Int → CDouble) (self : Nat) (item : PyValue) : JSValue :=
  match item with
  | .bool b => .bool b
  | .int v =>
      -- PyLong_AsLongAndOverflow: overflow iff the value does not fit a C long
      if v < cLongMin ∨ cLongMax < v then
        .float64 (round v)
      else
        -- JS_MKVAL(JS_TAG_INT, value): value is stored into the 32-bit field
        .int (toInt32 v)
  | .float d => .float64 d
  | .none => .null
  | .str s => .string s
  | .jsObject _ w => w   -- JS_DupValue(self->context, object->object)
  | .otherVal _ => .undefined

/-- listHasPrefix l p: p is a prefix of l (over characters). -/
def listHasPrefix : List Char → List Char → Bool
  | _, [] => true
  | [], _ :: _ => false
  | a :: l, b :: p => a = b && listHasPrefix l p

/-- listHasSubstr l p: p occurs contiguously somewhere in l. -/
def listHasSubstr : List Char → List Char → Bool
  | l, p =>
    match l with
    | [] => listHasPrefix [] p
    | _ :: rest => listHasPrefix l p || listHasSubstr rest p

/-- C strstr as a containment test: the needle occurs in the haystack. -/
def strstr (haystack needle : String) : Bool :=
  listHasSubstr haystack.data needle.data

/-- quickjs_exception_to_python (module.c:309).  The engine interactions
(JS_GetException, JS_ToCString on the exception, reading its stack property)
are summarized by the two inputs: `cstring` is the engine string
representation of the pending exception (none when JS_ToCString returned
NULL) and `stack` is the string of its stack property when present.  Returns
the Python exception that PyErr_Format sets. -/
def quickjs_exception_to_python (cstring : Option String) (stack : Option String) : PyErr :=
  match cstring with
  | some s =>
      let safe_stack_cstring := stack.getD ""
      if strstr s "stack overflow" then
        { kind := .StackOverflowExc, msg := s ++ "\n" ++ safe_stack_cstring }
      else
        { kind := .JSException, msg := s ++ "\n" ++ safe_stack_cstring }
  | none =>
      { kind := .JSException,
        msg := "(Failed obtaining QuickJS error string. Concurrency issue?)" }

/-- Environment of one quickjs_to_python call: whether PyType_GenericAlloc
succeeds, and the engine strings of the pending exception of the context
(used only when the input has the exception tag). -/
structure QjsEnv where
  allocOk : Bool
  excText : Option String
  excStack : Option String
deriving DecidableEq, Repr

/-- Outcome of quickjs_to_python, instrumented with reference accounting on
the input value: `ret` is the returned Python object (none means NULL was
returned with a Python exception set, recorded in `err`); `freesOnInput` and
`dupsOnInput` count the JS_FreeValue and JS_DupValue calls applied to the
input value; `retainedInResult` counts the references to the input value
held by the returned Python object. -/
structure QjsToPyResult where
  ret : Option PyValue
  err : Option PyErr
  freesOnInput : Nat
  dupsOnInput : Nat
  retainedInResult : Nat
deriving DecidableEq, Repr

/-- quickjs_to_python (module.c:343).  Converts a JSValue to a Python object;
takes ownership of the JSValue.  The branch on the tag mirrors the if/else
chain; every branch falls through to the shared `finish:` label, which
performs the single JS_FreeValue on the input.  Engine primitives modelled
from the spec: JS_ToCString on a big integer yields its base-10 decimal
representation, which PyLong_FromString parses back; JS_ToCString on a
string yields its text. -/
def quickjs_to_python (rt : Nat) (env : QjsEnv) (value : JSValue) : QjsToPyResult :=
  let branch : Option PyValue × Option PyErr × Nat × Nat :=
    match value with
    | .int v => (some (.int v), none, 0, 0)
    | .bigInt n => (some (.int n), none, 0, 0)
    | .bool b => (some (.bool b), none, 0, 0)
    | .null => (some .none, none, 0, 0)
    | .undefined => (some .none, none, 0, 0)
    | .exception =>
        (none, some (quickjs_exception_to_python env.excText env.excStack), 0, 0)
    | .float64 d => (some (.float d), none, 0, 0)
    | .string s => (some (.str s), none, 0, 0)
    | .object _ | .module _ | .symbol _ =>
        if env.allocOk then
          -- Py_INCREF(runtime_data); object->object = JS_DupValue(context, value)
          (some (.jsObject (some rt) value), none, 1, 1)
        else
          -- PyType_GenericAlloc failed: goto finish with a MemoryError set
          (none, some { kind := .MemoryError, msg := "" }, 0, 0)
    | .unknown tag =>
        (none, some { kind := .TypeError, msg := "Unknown quickjs tag: " ++ toString tag },
         0, 0)
  -- finish: JS_FreeValue(context, value) runs on every path
  { ret := branch.1
    err := branch.2.1
    freesOnInput := 1
    dupsOnInput := branch.2.2.1
    retainedInResult := branch.2.2.2 }

/-- Number of references to the engine value `v` held by a Python object
returned from quickjs_to_python (one when it is a wrapper of `v`). -/
def refsToInput (ret : Option PyValue) (v : JSValue) : Nat :=
  match ret with
  | some (.jsObject _ w) => if w = v then 1 else 0
  | _ => 0

/-- A Python exception type object created at module initialization.  `base`
records the base argument passed to PyErr_NewExceptionWithDoc: none models a
NULL base, for which CPython uses the host default base class Exception. -/
structure PyExcTypeDef where
  name : String
  docstring : String
  base : Option String
deriving DecidableEq, Repr

/-- PyErr_NewExceptionWithDoc: creates a new exception type object with the
given name, docstring, and base (none = NULL = the host Exception class). -/
def PyErr_NewExceptionWithDoc (name docstring : String) (base : Option String) : PyExcTypeDef :=
  { name := name, docstring := docstring, base := base }

/-- isSubtypeOf t b: the exception type t is a proper subtype of the
exception type b, i.e. t was created with b as its explicit base.  (All
types created by module_exec have a base chain of length at most one, so a
single-step check captures the hierarchy.) -/
def isSubtypeOf (t b : PyExcTypeDef) : Bool :=
  t.base = some b.name

/-- The exception type objects created by module_exec (module.c:924). -/
structure ModExcState where
  JSException : PyExcTypeDef
  StackOverflowException : PyExcTypeDef
deriving DecidableEq, Repr

/-- module_exec (module.c:924), exception-type part: both calls to
PyErr_NewExceptionWithDoc pass NULL for the base and the dict. -/
def module_exec : ModExcState :=
  { JSException :=
      PyErr_NewExceptionWithDoc "JSException"
        "an exception that has been thrown by quickjs" none
    StackOverflowException :=
      PyErr_NewExceptionWithDoc "StackOverflow"
        "an excpetion thrown when quickjs overflows" none }

/-- Time-limit configuration of a context (has_time_limit and time_limit
fields of PyJsContextObject; time_limit holds clock_t ticks). -/
structure TimeLimitState where
  has_time_limit : Bool
  time_limit : Int
deriving DecidableEq, Repr

/-- pyjscontext_set_time_limit (module.c:718).  `isNeg` models the C test
`limit < 0` on the double and `scale` models `(clock_t)(limit *
CLOCKS_PER_SEC)` (host floating-point operations, left abstract).  Returns
the Python error set (none on success) and the new state. -/
def pyjscontext_set_time_limit (isNeg : CDouble → Bool) (scale : CDouble → Int)
    (st : TimeLimitState) (arg : PyValue) : Option PyErr × TimeLimitState :=
  match arg with
  | .float d =>
      if isNeg d then
        (none, { has_time_limit := false, time_limit := st.time_limit })
      else
        (none, { has_time_limit := true, time_limit := scale d })
  | _ =>
      -- PyFloat_Check failed: TypeError, state untouched
      (some { kind := .TypeError, msg := "excepted a float got %s" }, st)

/-- Outcome of a C-implemented JS function: a returned value, or a thrown
engine exception (JS_Throw...) identified by its error class and message. -/
inductive JsCallOutcome where
  | ret (v : JSValue)
  | thrown (errorClass : String) (msg : String)
deriving DecidableEq, Repr

/-- Conversion of the script-side argument vector into Python objects, as in
the loop of js_python_function_call: each argv element is duplicated and fed
to quickjs_to_python; the loop stops at the first failing conversion. -/
def convertArgs (rt : Nat) (qenv : QjsEnv) : List JSValue → Option (List PyValue)
  | [] => some []
  | a :: rest =>
      match (quickjs_to_python rt qenv a).ret with
      | Option.none => Option.none
      | some pa =>
          match convertArgs rt qenv rest with
          | Option.none => Option.none
          | some prest => some (pa :: prest)

/-- js_python_function_call (module.c:453).  `has_time_limit` is the field of
the runtime data; `tupleAllocOk` is whether PyTuple_New succeeds; `callable`
models PyObject_CallObject on the registered Python callable (the opaque of
the function object), yielding either a result or a raised Python exception.
Returns the outcome and whether the Python callable was invoked. -/
def js_python_function_call (round : Int → CDouble) (rt : Nat)
    (has_time_limit : Bool) (tupleAllocOk : Bool) (qenv : QjsEnv)
    (callable : List PyValue → Except PyErr PyValue) (argv : List JSValue) :
    JsCallOutcome × Bool :=
  if has_time_limit then
    (.thrown "InternalError" "Can not call into Python with a time limit set.", false)
  else if tupleAllocOk = false then
    -- PyTuple_New failed: JS_ThrowOutOfMemory
    (.thrown "InternalError" "out of memory", false)
  else
    match convertArgs rt qenv argv with
    | Option.none =>
        (.thrown "InternalError" "Internal error: could not convert args.", false)
    | some pyargs =>
        match callable pyargs with
        | .error _ => (.thrown "InternalError" "Python call failed.", true)
        | .ok result =>
            match python_to_quickjs_possible rt result with
            | .ok => (.ret (python_to_quickjs round rt result), true)
            | .fail _ =>
                -- PyErr_Clear(); the failure becomes a script-level error
                (.thrown "InternalError" "Can not convert Python result to JS.", true)

/-- Modelled from the spec: the engine renders a pending exception thrown
with JS_ThrowInternalError as its error class name followed by the message,
which is what JS_ToCString later returns for it. -/
def pendingTextOfThrown : JsCallOutcome → Option String
  | .thrown errorClass msg => some (errorClass ++ ": " ++ msg)
  | .ret _ => Option.none

/-- Observable side effects of pyjsobject_tp_call towards the engine:
js_malloc of the argument vector, argument conversion (which may allocate
script values), and the JS_Call engine invocation. -/
inductive TpCallEvent where
  | jsMallocEv
  | argConvertEv
  | engineCallEv
deriving DecidableEq, Repr

/-- The data of a _quickjs.Object instance: the runtime_data pointer (none
when NULL) and the wrapped engine value. -/
structure PyJsObjectM where
  runtime : Option Nat
  object : JSValue
deriving DecidableEq, Repr

/-- First error produced by the validation loop of pyjsobject_tp_call: the
arguments are scanned in order with python_to_quickjs_possible and the error
of the first unconvertible one is reported. -/
def firstArgError (rt : Nat) : List PyValue → Option PyErr
  | [] => Option.none
  | a :: rest =>
      match python_to_quickjs_possible rt a with
      | .ok => firstArgError rt rest
      | .fail e => some e

/-- pyjsobject_tp_call (module.c:265).  `jsMallocOk` is whether js_malloc of
the argument vector succeeds and `callFn` models JS_Call on the wrapped
object with the converted arguments.  Returns the Python result (as the
pair returned-object / error set) together with the list of engine-side
events, in order. -/
def pyjsobject_tp_call (round : Int → CDouble) (jsMallocOk : Bool)
    (callFn : JSValue → List JSValue → JSValue) (qenv : QjsEnv)
    (self : PyJsObjectM) (args : List PyValue) :
    (Option PyValue × Option PyErr) × List TpCallEvent :=
  match self.runtime with
  | Option.none =>
      -- This object does not have a context and has not been created by this
      -- module: Py_RETURN_NONE
      ((some .none, Option.none), [])
  | some rt =>
      -- First loop through all arguments and check that they are supported
      -- without doing anything
      match firstArgError rt args with
      | some e => ((Option.none, some e), [])
      | Option.none =>
          if 0 < args.length ∧ jsMallocOk = false then
            ((Option.none,
              some (quickjs_exception_to_python (some "InternalError: out of memory")
                      Option.none)),
             [.jsMallocEv])
          else
            let jsargs := args.map (python_to_quickjs round rt)
            let value := callFn self.object jsargs
            let out := quickjs_to_python rt qenv value
            ((out.ret, out.err),
             (if 0 < args.length then [TpCallEvent.jsMallocEv] else [])
               ++ args.map (fun _ => TpCallEvent.argConvertEv)
               ++ [TpCallEvent.engineCallEv])

/-- A queued engine job (microtask): it either executes successfully or
fails, leaving a pending exception with the given engine strings. -/
inductive PendingJob where
  | ok
  | err (text : Option String) (stack : Option String)
deriving DecidableEq, Repr

/-- Modelled from the spec: JS_ExecutePendingJob, an engine primitive that
runs one queued microtask.  It returns 0 when the queue is empty (leaving it
empty), 1 after executing one job successfully, and -1 when the executed job
failed, together with the new queue and the pending-exception strings. -/
def JS_ExecutePendingJob :
    List PendingJob → Int × List PendingJob × Option (Option String × Option String)
  | [] => (0, [], Option.none)
  | .ok :: rest => (1, rest, Option.none)
  | .err text stack :: rest => (-1, rest, some (text, stack))

/-- Host-visible result of execute_pending_job: True, False, or a raised
Python exception. -/
inductive PendingJobResult where
  | retTrue
  | retFalse
  | raised (e : PyErr)
deriving DecidableEq, Repr

/-- pyjscontext_execute_pending_job (module.c:633).  Runs one pending job via
the engine; ret greater than zero yields True, zero yields False, and a
negative ret translates the pending exception into a Python exception. -/
def pyjscontext_execute_pending_job (queue : List PendingJob) :
    PendingJobResult × List PendingJob :=
  match JS_ExecutePendingJob queue with
  | (ret, queueAfter, pend) =>
      if 0 < ret then (.retTrue, queueAfter)
      else if ret = 0 then (.retFalse, queueAfter)
      else
        match pend with
        | some (text, stack) =>
            (.raised (quickjs_exception_to_python text stack), queueAfter)
        | Option.none =>
            (.raised (quickjs_exception_to_python Option.none Option.none), queueAfter)

/-- A host primitive value in the sense of the round-trip property: bool,
integer representable in the engine-native 32-bit integer width, float, the
None sentinel, or a text string. -/
def roundTrippable : PyValue → Prop
  | .bool _ => True
  | .int n => -(2 ^ 31) ≤ n ∧ n < 2 ^ 31
  | .float _ => True
  | .none => True
  | .str _ => True
  | _ => False

/-- Concrete host int-to-double rounding used to instantiate theorems. -/
def rnd0 : Int → CDouble := fun i => { bits := i.natAbs }

/-- Concrete conversion environment used to instantiate theorems. -/
def qenv0 : QjsEnv :=
  { allocOk := true, excText := Option.none, excStack := Option.none }

/-- Concrete negativity test on doubles used to instantiate theorems. -/
def isNeg0 : CDouble → Bool := fun _ => false

/-- Concrete clock-tick scaling used to instantiate theorems. -/
def scale0 : CDouble → Int := fun d => Int.ofNat d.bits

/-- Concrete initial time-limit state used to instantiate theorems. -/
def st0 : TimeLimitState := { has_time_limit := false, time_limit := 0 }

/-- A host callable that always raises a ValueError with message boom. -/
def badCallable : List PyValue → Except PyErr PyValue :=
  fun _ => .error { kind := .otherExc "ValueError", msg := "boom" }

end QuickJSBridge

namespace QuickJSBridge

/-- Every error reported by python_to_quickjs_possible is a TypeError
(unsupported type) or a ValueError (cross-runtime mixing). -/
theorem python_to_quickjs_possible_kind (rt : Nat) (item : PyValue) (e : PyErr)
    (h : python_to_quickjs_possible rt item = .fail e) :
    e.kind = .TypeError ∨ e.kind = .ValueError := by
  cases item <;> simp [python_to_quickjs_possible] at h
  case jsObject runtime v =>
    split at h
    · cases h
    · cases h
      right
      rfl
  case otherVal typeName =>
    cases h
    left
    rfl

/-- The first validation error of an argument list is a TypeError or a
ValueError. -/
theorem firstArgError_kind (rt : Nat) (args : List PyValue) (e : PyErr)
    (h : firstArgError rt args = some e) :
    e.kind = .TypeError ∨ e.kind = .ValueError := by
  induction args with
  | nil => cases h
  | cons a rest ih =>
      unfold firstArgError at h
      cases hc : python_to_quickjs_possible rt a with
      | ok => rw [hc] at h; exact ih h
      | fail e0 =>
          rw [hc] at h
          have he : e0 = e := Option.some.inj h
          subst he
          exact python_to_quickjs_possible_kind rt a e0 hc

/-- Claim C1: for every host primitive value v (bool, integer representable
in the engine-native integer width, float, None, UTF-8 string), converting
host-to-script and back script-to-host yields v again. -/
theorem scriptToHost_hostToScript_id (round : Int → CDouble) (self rt : Nat)
    (env : QjsEnv) (v : PyValue) (h : roundTrippable v) :
    (quickjs_to_python rt env (python_to_quickjs round self v)).ret = some v := by
  cases v with
  | bool b => rfl
  | int n =>
      obtain ⟨h1, h2⟩ := h
      have hlo : (-(2 ^ 31) : Int) = -2147483648 := by norm_num
      have hhi : ((2 : Int) ^ 31) = 2147483648 := by norm_num
      rw [hlo] at h1
      rw [hhi] at h2
      have hno : ¬(n < cLongMin ∨ cLongMax < n) := by
        simp only [cLongMin, cLongMax]
        norm_num
        constructor <;> omega
      simp only [python_to_quickjs, if_neg hno]
      have ht : toInt32 n = n := by
        simp only [toInt32]
        norm_num
        omega
      simp [quickjs_to_python, ht]
  | float d => rfl
  | none => rfl
  | str s => rfl
  | jsObject runtime w => exact h.elim
  | otherVal t => exact h.elim

/-- Witness for C1 at the concrete primitive value 7. -/
theorem scriptToHost_hostToScript_id_witness :
    (quickjs_to_python 0 qenv0 (python_to_quickjs rnd0 0 (.int 7))).ret
      = some (.int 7) :=
  scriptToHost_hostToScript_id rnd0 0 0 qenv0 (.int 7)
    (by constructor <;> norm_num)

/-- Claim C2 (code bug): the conversion of a host integer that fits a 64-bit
C long but not the engine-native 32-bit integer is not promoted to a script
double as required; it is silently truncated by the 32-bit store of
JS_MKVAL.  At the failing input 2^31 the code produces the script integer
-2^31, which is not a script double. -/
theorem python_to_quickjs_truncates_2_pow_31 (round : Int → CDouble) (self : Nat) :
    python_to_quickjs round self (.int 2147483648) = .int (-2147483648) ∧
    (∀ d : CDouble, JSValue.int (-2147483648) ≠ JSValue.float64 d) := by
  constructor
  · have hno : ¬((2147483648 : Int) < cLongMin ∨ cLongMax < 2147483648) := by
      simp only [cLongMin, cLongMax]
      norm_num
    simp only [python_to_quickjs, if_neg hno]
    have ht : toInt32 2147483648 = -2147483648 := by
      simp only [toInt32]
      norm_num
    rw [ht]
  · intro d h
    cases h

/-- Claim C3: quickjs_to_python consumes exactly one engine reference to its
input on every path: every path performs exactly one JS_FreeValue on the
input, and every JS_DupValue of the input is accounted for by a reference
retained in the returned wrapper. -/
theorem quickjs_to_python_consumes_one_reference (rt : Nat) (env : QjsEnv)
    (value : JSValue) :
    (quickjs_to_python rt env value).freesOnInput = 1 ∧
    1 + (quickjs_to_python rt env value).dupsOnInput =
      (quickjs_to_python rt env value).freesOnInput +
        refsToInput (quickjs_to_python rt env value).ret value := by
  obtain ⟨allocOk, excText, excStack⟩ := env
  cases value <;> cases allocOk <;> simp [quickjs_to_python, refsToInput]

/-- Claim C4 (counterexample): a host callable raising a ValueError does not
surface as the original host exception type; the reentrant call converts it
into the script internal error with message Python call failed, and the
top-level translation of that pending exception raises the generic
JSException type. -/
theorem callable_error_surfaces_as_jsexception_counterexample :
    js_python_function_call rnd0 0 false true qenv0 badCallable []
      = (.thrown "InternalError" "Python call failed.", true) ∧
    (quickjs_to_python 0
        { allocOk := true
          excText := pendingTextOfThrown
            (js_python_function_call rnd0 0 false true qenv0 badCallable []).1
          excStack := Option.none } .exception).err
      = some { kind := .JSException, msg := "InternalError: Python call failed.\n" } ∧
    PyExcKind.JSException ≠ PyExcKind.otherExc "ValueError" := by
  refine ⟨rfl, by decide, by simp⟩

/-- Claim C4 (amended): when a registered host callable raises, the call from
script returns the thrown script internal error Python call failed (after
the callable was invoked), and the top-level translation of that pending
exception raises the generic JSException type; the original host exception
type and message are not attached by this layer. -/
theorem callable_error_becomes_internal_error (round : Int → CDouble) (rt : Nat)
    (qenv : QjsEnv) (callable : List PyValue → Except PyErr PyValue)
    (argv : List JSValue) (pyargs : List PyValue) (e : PyErr) (stack : Option String)
    (hconv : convertArgs rt qenv argv = some pyargs)
    (hcall : callable pyargs = .error e) :
    js_python_function_call round rt false true qenv callable argv
      = (.thrown "InternalError" "Python call failed.", true) ∧
    (quickjs_exception_to_python (some "InternalError: Python call failed.") stack).kind
      = .JSException := by
  constructor
  · simp [js_python_function_call, hconv, hcall]
  · have hns : strstr "InternalError: Python call failed." "stack overflow" = false := by
      decide
    simp [quickjs_exception_to_python, hns]

/-- Witness for the amended C4 at a concrete raising callable. -/
theorem callable_error_becomes_internal_error_witness :
    js_python_function_call rnd0 0 false true qenv0 badCallable []
      = (.thrown "InternalError" "Python call failed.", true) ∧
    (quickjs_exception_to_python (some "InternalError: Python call failed.")
        Option.none).kind = .JSException :=
  callable_error_becomes_internal_error rnd0 0 qenv0 badCallable [] []
    { kind := .otherExc "ValueError", msg := "boom" } Option.none rfl rfl

/-- Claim C5 (counterexample): the StackOverflow exception type created by
module_exec is not a subtype of the JSException type, because both are
created with a NULL base. -/
theorem stack_overflow_not_subtype_of_jsexception :
    isSubtypeOf module_exec.StackOverflowException module_exec.JSException = false := rfl

/-- Claim C5 (amended): the StackOverflow type is created with a NULL base
(so its base is the host default Exception class, not the JSException type);
an engine exception with a string representation translates to the
StackOverflow type exactly when its text contains the stack overflow marker,
and otherwise (including when no string representation could be obtained) it
translates to the generic JSException type. -/
theorem stack_overflow_base_and_marker_translation :
    module_exec.StackOverflowException.base = Option.none ∧
    isSubtypeOf module_exec.StackOverflowException module_exec.JSException = false ∧
    (∀ s stack, ((quickjs_exception_to_python (some s) stack).kind
        = PyExcKind.StackOverflowExc) ↔ strstr s "stack overflow" = true) ∧
    (∀ s stack, (quickjs_exception_to_python (some s) stack).kind
        = PyExcKind.StackOverflowExc ∨
      (quickjs_exception_to_python (some s) stack).kind = PyExcKind.JSException) ∧
    (∀ stack, (quickjs_exception_to_python Option.none stack).kind
        = PyExcKind.JSException) := by
  refine ⟨rfl, rfl, ?_, ?_, fun stack => rfl⟩
  · intro s stack
    simp only [quickjs_exception_to_python]
    split <;> simp_all
  · intro s stack
    simp only [quickjs_exception_to_python]
    split <;> simp

/-- Claim C6: a call on a wrapped object with an unconvertible argument
(unsupported host type, or a wrapped value owned by a different runtime)
fails with the corresponding TypeError or ValueError before any script-side
allocation and without any engine call: the event list is empty. -/
theorem tp_call_rejects_bad_arg_before_engine (round : Int → CDouble)
    (jsMallocOk : Bool) (callFn : JSValue → List JSValue → JSValue) (qenv : QjsEnv)
    (self : PyJsObjectM) (args : List PyValue) (rt : Nat) (e : PyErr)
    (hrt : self.runtime = some rt) (herr : firstArgError rt args = some e) :
    pyjsobject_tp_call round jsMallocOk callFn qenv self args
      = ((Option.none, some e), []) ∧
    (e.kind = .TypeError ∨ e.kind = .ValueError) := by
  constructor
  · simp [pyjsobject_tp_call, hrt, herr]
  · exact firstArgError_kind rt args e herr

/-- Witness for C6: calling with an argument wrapped by a different runtime
raises the cross-runtime ValueError with no engine-side event. -/
theorem tp_call_rejects_bad_arg_witness :
    pyjsobject_tp_call rnd0 true (fun _ _ => .null) qenv0
        { runtime := some 0, object := .object 5 }
        [.jsObject (some 1) (.object 7)]
      = ((Option.none,
          some (PyErr.mk .ValueError
            "Can not mix JS objects from different contexts.")), []) ∧
    ((PyErr.mk PyExcKind.ValueError
        "Can not mix JS objects from different contexts.").kind = .TypeError ∨
      (PyErr.mk PyExcKind.ValueError
        "Can not mix JS objects from different contexts.").kind = .ValueError) :=
  tp_call_rejects_bad_arg_before_engine rnd0 true (fun _ _ => .null) qenv0
    { runtime := some 0, object := .object 5 }
    [.jsObject (some 1) (.object 7)] 0
    (PyErr.mk .ValueError "Can not mix JS objects from different contexts.")
    rfl rfl

/-- Claim C7: when a time limit is configured on the runtime, a script-side
invocation of a registered host callable fails immediately with the
descriptive internal error and the host callable is never invoked. -/
theorem js_python_function_call_time_limit (round : Int → CDouble) (rt : Nat)
    (tupleAllocOk : Bool) (qenv : QjsEnv)
    (callable : List PyValue → Except PyErr PyValue) (argv : List JSValue) :
    js_python_function_call round rt true tupleAllocOk qenv callable argv
      = (.thrown "InternalError" "Can not call into Python with a time limit set.",
         false) := rfl

/-- Claim C8: execute_pending_job returns True when the engine executed one
queued job, returns False on an empty queue (leaving the queue empty, hence
idempotently False on repeated calls), and raises the translated script
exception when the executed job failed. -/
theorem execute_pending_job_spec :
    pyjscontext_execute_pending_job [] = (.retFalse, []) ∧
    (∀ rest, pyjscontext_execute_pending_job (.ok :: rest) = (.retTrue, rest)) ∧
    (∀ text stack rest,
      pyjscontext_execute_pending_job (.err text stack :: rest)
        = (.raised (quickjs_exception_to_python text stack), rest)) :=
  ⟨rfl, fun _ => rfl, fun _ _ _ => rfl⟩

/-- Claim C9: calling a wrapped object whose runtime_data is NULL (it was
constructed directly from the type) returns None with no error and no
engine-side event. -/
theorem tp_call_without_runtime_returns_none (round : Int → CDouble)
    (jsMallocOk : Bool) (callFn : JSValue → List JSValue → JSValue) (qenv : QjsEnv)
    (object : JSValue) (args : List PyValue) :
    pyjsobject_tp_call round jsMallocOk callFn qenv
        { runtime := Option.none, object := object } args
      = ((some .none, Option.none), []) := rfl

/-- Claim C10: set_time_limit raises a TypeError and leaves the state
unchanged for every non-float argument; for a float argument it disables the
limit when the value is negative and otherwise arms the limit scaled to
clock ticks. -/
theorem set_time_limit_spec (isNeg : CDouble → Bool) (scale : CDouble → Int)
    (st : TimeLimitState) (arg : PyValue) :
    ((∀ d, arg ≠ .float d) →
      pyjscontext_set_time_limit isNeg scale st arg
        = (some { kind := .TypeError, msg := "excepted a float got %s" }, st)) ∧
    (∀ d, arg = .float d → isNeg d = true →
      pyjscontext_set_time_limit isNeg scale st arg
        = (Option.none, { has_time_limit := false, time_limit := st.time_limit })) ∧
    (∀ d, arg = .float d → isNeg d = false →
      pyjscontext_set_time_limit isNeg scale st arg
        = (Option.none, { has_time_limit := true, time_limit := scale d })) := by
  refine ⟨?_, ?_, ?_⟩
  · intro hnf
    cases arg with
    | float d => exact absurd rfl (hnf d)
    | bool b => rfl
    | int v => rfl
    | none => rfl
    | str s => rfl
    | jsObject runtime v => rfl
    | otherVal t => rfl
  · intro d hd hneg
    subst hd
    simp [pyjscontext_set_time_limit, hneg]
  · intro d hd hneg
    subst hd
    simp [pyjscontext_set_time_limit, hneg]

/-- Witness for C10: an integer argument raises a TypeError leaving the state
unchanged, and a non-negative float arms the limit. -/
theorem set_time_limit_witness :
    pyjscontext_set_time_limit isNeg0 scale0 st0 (.int 3)
      = (some { kind := .TypeError, msg := "excepted a float got %s" }, st0) ∧
    pyjscontext_set_time_limit isNeg0 scale0 st0 (.float { bits := 0 })
      = (Option.none, { has_time_limit := true, time_limit := scale0 { bits := 0 } }) :=
  ⟨(set_time_limit_spec isNeg0 scale0 st0 (.int 3)).1 (fun _ h => by cases h),
   (set_time_limit_spec isNeg0 scale0 st0 (.float { bits := 0 })).2.2
     { bits := 0 } rfl rfl⟩

end QuickJSBridge
